import Mathlib

/-!
Verification of the serverless weather pipeline's core logic: reading
parsing, daily aggregation, per-city fan-out persistence, and the
aggregator lambda handler.  Python values are embedded as an inductive
`PyVal` (JSON-style data with `None`), numeric values as exact rationals,
exceptions as an explicit `PyErr` error type carried by `Except`, and the
I/O collaborators (S3, the relational store, environment variables) as
explicit function-valued parameters.
-/

namespace WeatherPipeline

/-- Embedded Python/JSON value as consumed by the aggregator: `None`
(covering both JSON `null` and a missing lookup), numbers (exact
rationals), strings, and nested objects as association lists. -/
inductive PyVal where
  | none
  | num (q : ℚ)
  | str (s : String)
  | dict (fields : List (String × PyVal))

/-- Python `v is None`. -/
def PyVal.isNone : PyVal → Bool
  | .none => true
  | _ => false

/-- Numeric view of a value: `isinstance(v, (int, float))` together with
`float(v)`. -/
def PyVal.asNum : PyVal → Option ℚ
  | .num q => Option.some q
  | _ => Option.none

/-- String view of a value. -/
def PyVal.asStr : PyVal → Option String
  | .str s => Option.some s
  | _ => Option.none

/-- Dict view of a value; a non-dict in a dict position makes the
Python attribute lookup `.get` raise. -/
def PyVal.asDict : PyVal → Option (List (String × PyVal))
  | .dict l => Option.some l
  | _ => Option.none

/-- Python truthiness of an embedded value (`bool(v)`). -/
def PyVal.pyTruthy : PyVal → Bool
  | .none => false
  | .num q => !(decide (q = 0))
  | .str s => !s.isEmpty
  | .dict l => !l.isEmpty

/-- Python `x or y` for embedded values. -/
def pyOr (a b : PyVal) : PyVal := if a.pyTruthy then a else b

/-- Python `d.get(k, default)` on an embedded dict. -/
def dictGetD : List (String × PyVal) → String → PyVal → PyVal
  | [], _, d => d
  | (k', v) :: rest, k, d => if k' = k then v else dictGetD rest k d

/-- Exceptions raised by the embedded code paths. -/
inductive PyErr where
  | noValidData (city : String)
  | emptySeq
  | statisticsError
  | typeError
  | clientError (msg : String)
  | emptyAggData
  | noSourceFiles
  | exc (msg : String)
deriving DecidableEq

/-- Python `str(e)` for the embedded exceptions, as used when a caught
exception is stored in a result entry. -/
def errStr : PyErr → String
  | .noValidData city => "No valid data for " ++ city
  | .emptySeq => "min() arg is an empty sequence"
  | .statisticsError => "mean requires at least one data point"
  | .typeError => "type error"
  | .clientError m => m
  | .emptyAggData => "Aggregation data is empty."
  | .noSourceFiles => "No source files provided for aggregation."
  | .exc m => m

/-- Result of `parse_weather`: the six extracted fields, still as raw
embedded values (the sync parser performs no numeric filtering). -/
structure ParsedWeather where
  temp_min : PyVal
  temp_max : PyVal
  temp_avg : PyVal
  humidity : PyVal
  precipitation : PyVal
  wind_speed : PyVal

/-- The sync `parse_weather` of
`src/app/lambdas/weather_daily_aggregator/handler.py` (lines 34-46):
reads `main`/`wind`/`rain` sub-dicts (defaulting to `{}`), then extracts
the six fields with `.get`, `precipitation` defaulting to `0.0`.  A
non-dict payload, or a non-dict in a sub-dict position, raises
(`AttributeError` on `.get`), modeled as `typeError`. -/
def parse_weather (data : PyVal) : Except PyErr ParsedWeather :=
  match data.asDict with
  | Option.none => .error .typeError
  | Option.some d =>
    match (dictGetD d "main" (.dict [])).asDict,
          (dictGetD d "wind" (.dict [])).asDict,
          (dictGetD d "rain" (.dict [])).asDict with
    | Option.some main, Option.some wind, Option.some rain =>
      .ok { temp_min := dictGetD main "temp_min" .none
            temp_max := dictGetD main "temp_max" .none
            temp_avg := dictGetD main "temp" .none
            humidity := dictGetD main "humidity" .none
            precipitation := dictGetD rain "1h" (.num 0)
            wind_speed := dictGetD wind "speed" .none }
    | _, _, _ => .error .typeError

/-- The async `parse_weather` of `src/app/utils/weather_utils_async.py`
(lines 34-53); identical to the sync parser except that precipitation is
`rain.get("1h", 0.0) or 0.0`, coercing falsy values to `0.0`. -/
def parse_weather_async (data : PyVal) : Except PyErr ParsedWeather :=
  match data.asDict with
  | Option.none => .error .typeError
  | Option.some d =>
    match (dictGetD d "main" (.dict [])).asDict,
          (dictGetD d "wind" (.dict [])).asDict,
          (dictGetD d "rain" (.dict [])).asDict with
    | Option.some main, Option.some wind, Option.some rain =>
      .ok { temp_min := dictGetD main "temp_min" .none
            temp_max := dictGetD main "temp_max" .none
            temp_avg := dictGetD main "temp" .none
            humidity := dictGetD main "humidity" .none
            precipitation := pyOr (dictGetD rain "1h" (.num 0)) (.num 0)
            wind_speed := dictGetD wind "speed" .none }
    | _, _, _ => .error .typeError

/-- One iteration of the per-file `try` body: fetch the blob and parse
it; any exception (S3 `get_json` or the parser) is logged and the file
skipped. -/
def tryFetchParse (s3get : String → Except PyErr PyVal) (f : String) :
    Option ParsedWeather :=
  match s3get f with
  | .error _ => Option.none
  | .ok data =>
    match parse_weather data with
    | .error _ => Option.none
    | .ok w => Option.some w

/-- Async variant of `tryFetchParse`, using the async parser. -/
def tryFetchParseA (s3get : String → Except PyErr PyVal) (f : String) :
    Option ParsedWeather :=
  match s3get f with
  | .error _ => Option.none
  | .ok data =>
    match parse_weather_async data with
    | .error _ => Option.none
    | .ok w => Option.some w

/-- The six accumulator lists of the sync `aggregate_city_weather`
(handler.py lines 52-59).  Elements are raw values: the sync loop
appends anything that `is not None`. -/
structure SyncMetrics where
  temps_min : List PyVal
  temps_max : List PyVal
  temps_avg : List PyVal
  humidities : List PyVal
  precipitations : List PyVal
  winds : List PyVal

/-- Initial (all-empty) accumulators. -/
def SyncMetrics.empty : SyncMetrics := ⟨[], [], [], [], [], []⟩

/-- Python `if v is not None: l.append(v)`. -/
def appendIfPresent (l : List PyVal) (v : PyVal) : List PyVal :=
  if v.isNone then l else l ++ [v]

/-- Accumulation of one parsed reading in the sync loop
(handler.py lines 65-76): each of the six fields is appended when it
`is not None`. -/
def syncStep (m : SyncMetrics) (w : ParsedWeather) : SyncMetrics :=
  { temps_min := appendIfPresent m.temps_min w.temp_min
    temps_max := appendIfPresent m.temps_max w.temp_max
    temps_avg := appendIfPresent m.temps_avg w.temp_avg
    humidities := appendIfPresent m.humidities w.humidity
    precipitations := appendIfPresent m.precipitations w.precipitation
    winds := appendIfPresent m.winds w.wind_speed }

/-- One iteration of the sync file loop (handler.py lines 61-78),
including the per-file `try`/`except` skip. -/
def syncFold (s3get : String → Except PyErr PyVal) (m : SyncMetrics)
    (f : String) : SyncMetrics :=
  match tryFetchParse s3get f with
  | Option.some w => syncStep m w
  | Option.none => m

/-- The whole collection loop of the sync `aggregate_city_weather`. -/
def collectSync (s3get : String → Except PyErr PyVal)
    (day_files : List String) : SyncMetrics :=
  day_files.foldl (syncFold s3get) SyncMetrics.empty

/-- The six numeric accumulator lists of
`aggregate_city_weather_async` (weather_utils_async.py lines 77-84);
the async loop appends only values passing `isinstance(v, (int, float))`,
so the lists hold numbers. -/
structure AsyncMetrics where
  temps_min : List ℚ
  temps_max : List ℚ
  temps_avg : List ℚ
  humidities : List ℚ
  precipitations : List ℚ
  winds : List ℚ

/-- Initial (all-empty) async accumulators. -/
def AsyncMetrics.empty : AsyncMetrics := ⟨[], [], [], [], [], []⟩

/-- Accumulation of one parsed reading in the async `process_file`
(weather_utils_async.py lines 91-94): for each key, append `float(v)`
iff the value is numeric. -/
def asyncStep (m : AsyncMetrics) (w : ParsedWeather) : AsyncMetrics :=
  { temps_min := m.temps_min ++ w.temp_min.asNum.toList
    temps_max := m.temps_max ++ w.temp_max.asNum.toList
    temps_avg := m.temps_avg ++ w.temp_avg.asNum.toList
    humidities := m.humidities ++ w.humidity.asNum.toList
    precipitations := m.precipitations ++ w.precipitation.asNum.toList
    winds := m.winds ++ w.wind_speed.asNum.toList }

/-- One `process_file` call (weather_utils_async.py lines 86-96): fetch
and parse inside `try`, skipping the file on any exception. -/
def asyncFold (s3get : String → Except PyErr PyVal) (m : AsyncMetrics)
    (f : String) : AsyncMetrics :=
  match tryFetchParseA s3get f with
  | Option.some w => asyncStep m w
  | Option.none => m

/-- The gathered `process_file` calls of `aggregate_city_weather_async`
(line 98), modeled in input order; the aggregation result is
order-independent so the schedule does not matter. -/
def collectAsync (s3get : String → Except PyErr PyVal)
    (day_files : List String) : AsyncMetrics :=
  day_files.foldl (asyncFold s3get) AsyncMetrics.empty

/-- Running minimum used to model Python `min` as a fold. -/
def omin {α : Type} [LinearOrder α] (acc : Option α) (x : α) : Option α :=
  match acc with
  | Option.none => Option.some x
  | Option.some a => Option.some (min a x)

/-- Running maximum used to model Python `max` as a fold. -/
def omax {α : Type} [LinearOrder α] (acc : Option α) (x : α) : Option α :=
  match acc with
  | Option.none => Option.some x
  | Option.some a => Option.some (max a x)

/-- Minimum of a list, `Option.none` on the empty list. -/
def listMin {α : Type} [LinearOrder α] (l : List α) : Option α :=
  l.foldl omin Option.none

/-- Maximum of a list, `Option.none` on the empty list. -/
def listMax {α : Type} [LinearOrder α] (l : List α) : Option α :=
  l.foldl omax Option.none

/-- Python `min` over a list of two or more embedded values, with
CPython's dynamic typing: a homogeneous numeric list yields its numeric
minimum, a homogeneous string list its lexicographic minimum, and any
mixed or unordered list raises `TypeError`. -/
def pyMinMulti (l : List PyVal) : Except PyErr PyVal :=
  if l.all (fun v => v.asNum.isSome) then
    match listMin (l.filterMap PyVal.asNum) with
    | Option.some q => .ok (.num q)
    | Option.none => .error .typeError
  else if l.all (fun v => v.asStr.isSome) then
    match listMin (l.filterMap PyVal.asStr) with
    | Option.some s => .ok (.str s)
    | Option.none => .error .typeError
  else .error .typeError

/-- Python `max` over a list of two or more embedded values; see
`pyMinMulti`. -/
def pyMaxMulti (l : List PyVal) : Except PyErr PyVal :=
  if l.all (fun v => v.asNum.isSome) then
    match listMax (l.filterMap PyVal.asNum) with
    | Option.some q => .ok (.num q)
    | Option.none => .error .typeError
  else if l.all (fun v => v.asStr.isSome) then
    match listMax (l.filterMap PyVal.asStr) with
    | Option.some s => .ok (.str s)
    | Option.none => .error .typeError
  else .error .typeError

/-- Python `min(l)` on an embedded list: `ValueError` when empty, the
sole element when a singleton (CPython compares nothing then), otherwise
`pyMinMulti`. -/
def pyMin (l : List PyVal) : Except PyErr PyVal :=
  if l.isEmpty then .error .emptySeq
  else if l.length = 1 then .ok (l.headD .none)
  else pyMinMulti l

/-- Python `max(l)` on an embedded list; see `pyMin`. -/
def pyMax (l : List PyVal) : Except PyErr PyVal :=
  if l.isEmpty then .error .emptySeq
  else if l.length = 1 then .ok (l.headD .none)
  else pyMaxMulti l

/-- Python `statistics.mean(l)`: `StatisticsError` on the empty list;
on numeric data the exact mean (`statistics.mean` sums exact fractions);
`TypeError` on non-numeric data. -/
def pyMean (l : List PyVal) : Except PyErr PyVal :=
  if l.isEmpty then .error .statisticsError
  else if l.all (fun v => v.asNum.isSome) then
    .ok (.num ((l.filterMap PyVal.asNum).sum / l.length))
  else .error .typeError

/-- Python built-in `sum(l)`: `0` on the empty list, the sum on numeric
data, `TypeError` otherwise.  The sum is taken in exact rational
arithmetic; the bit-level IEEE-754 rounding of the float fold is
modeled separately by `fsum`, and the exact value here is the rounding-
free abstraction of it. -/
def pySum (l : List PyVal) : Except PyErr PyVal :=
  if l.all (fun v => v.asNum.isSome) then
    .ok (.num (l.filterMap PyVal.asNum).sum)
  else .error .typeError

/-- The summary dict returned by the sync `aggregate_city_weather`
(handler.py lines 83-91). -/
structure DailySummary where
  temp_min : PyVal
  temp_max : PyVal
  temp_avg : PyVal
  humidity_avg : PyVal
  precipitation_sum : PyVal
  wind_speed_avg : PyVal
  readings_count : ℕ

/-- The summary-construction phase of the sync `aggregate_city_weather`
(handler.py lines 80-91): raise `NoValidData` when no average
temperature was collected, otherwise build the summary dict, whose
entries are evaluated left to right so the first failing reduction
raises. -/
def summarize (city_name : String) (m : SyncMetrics) :
    Except PyErr DailySummary :=
  if m.temps_avg.isEmpty then .error (.noValidData city_name)
  else do
    let tmin ← pyMin m.temps_min
    let tmax ← pyMax m.temps_max
    let tavg ← pyMean m.temps_avg
    let havg ← pyMean m.humidities
    let psum ← pySum m.precipitations
    let wavg ← pyMean m.winds
    .ok { temp_min := tmin, temp_max := tmax, temp_avg := tavg
          humidity_avg := havg, precipitation_sum := psum
          wind_speed_avg := wavg, readings_count := m.temps_avg.length }

/-- The sync `aggregate_city_weather` (handler.py lines 49-91). -/
def aggregate_city_weather (city_name : String) (day_files : List String)
    (s3get : String → Except PyErr PyVal) : Except PyErr DailySummary :=
  summarize city_name (collectSync s3get day_files)

/-- The summary returned by `aggregate_city_weather_async`
(weather_utils_async.py lines 103-111); all-numeric by construction. -/
structure DailySummaryA where
  temp_min : ℚ
  temp_max : ℚ
  temp_avg : ℚ
  humidity_avg : ℚ
  precipitation_sum : ℚ
  wind_speed_avg : ℚ
  readings_count : ℕ

/-- Python `min` on a list of floats: `ValueError` when empty. -/
def qMinE (l : List ℚ) : Except PyErr ℚ :=
  match listMin l with
  | Option.some q => .ok q
  | Option.none => .error .emptySeq

/-- Python `max` on a list of floats: `ValueError` when empty. -/
def qMaxE (l : List ℚ) : Except PyErr ℚ :=
  match listMax l with
  | Option.some q => .ok q
  | Option.none => .error .emptySeq

/-- Python `statistics.mean` on a list of floats: `StatisticsError`
when empty, otherwise the exact mean. -/
def qMeanE (l : List ℚ) : Except PyErr ℚ :=
  if l.isEmpty then .error .statisticsError else .ok (l.sum / l.length)

/-- The summary-construction phase of `aggregate_city_weather_async`
(weather_utils_async.py lines 100-111).  As in `pySum`, the
precipitation sum is taken in exact rational arithmetic — the
rounding-free abstraction of the float fold modeled by `fsum`. -/
def summarizeA (city_name : String) (m : AsyncMetrics) :
    Except PyErr DailySummaryA :=
  if m.temps_avg.isEmpty then .error (.noValidData city_name)
  else do
    let tmin ← qMinE m.temps_min
    let tmax ← qMaxE m.temps_max
    let tavg ← qMeanE m.temps_avg
    let havg ← qMeanE m.humidities
    let wavg ← qMeanE m.winds
    .ok { temp_min := tmin, temp_max := tmax, temp_avg := tavg
          humidity_avg := havg
          precipitation_sum := m.precipitations.sum
          wind_speed_avg := wavg, readings_count := m.temps_avg.length }

/-- The async `aggregate_city_weather_async`
(weather_utils_async.py lines 56-111). -/
def aggregate_city_weather_async (city_name : String)
    (day_files : List String) (s3get : String → Except PyErr PyVal) :
    Except PyErr DailySummaryA :=
  summarizeA city_name (collectAsync s3get day_files)

/-- A calendar date (`datetime.date`). -/
structure Ymd where
  year : ℕ
  month : ℕ
  day : ℕ
deriving DecidableEq

/-- Two-digit zero padding, Python `f"{n:02}"`. -/
def pad2 (n : ℕ) : String := if n < 10 then "0" ++ toString n else toString n

/-- Four-digit zero padding as used by `str(date)` for the year. -/
def pad4 (n : ℕ) : String :=
  if n < 10 then "000" ++ toString n
  else if n < 100 then "00" ++ toString n
  else if n < 1000 then "0" ++ toString n
  else toString n

/-- Python `str(target_date)`, ISO `YYYY-MM-DD`. -/
def Ymd.iso (d : Ymd) : String :=
  pad4 d.year ++ "-" ++ pad2 d.month ++ "-" ++ pad2 d.day

/-- The column values of one `weather_aggregates` row, keyed by column
name, as set from the aggregation dict (`WeatherAggregate(**agg)` or the
`setattr` loop). -/
abbrev AggDict := List (String × PyVal)

/-- The aggregation dict built from a sync `DailySummary`
(handler.py lines 83-91), in Python dict-literal order. -/
def DailySummary.toDict (s : DailySummary) : AggDict :=
  [("temp_min", s.temp_min), ("temp_max", s.temp_max),
   ("temp_avg", s.temp_avg), ("humidity_avg", s.humidity_avg),
   ("precipitation_sum", s.precipitation_sum),
   ("wind_speed_avg", s.wind_speed_avg),
   ("readings_count", .num s.readings_count)]

/-- One row of the `weather_aggregates` table, restricted to the fields
the pipeline reads and writes. -/
structure AggRow where
  city_id : ℕ
  date : Ymd
  fields : AggDict

/-- The `(city_id, date)` filter used by both persistence paths. -/
abbrev keyMatch (cid : ℕ) (d : Ymd) (r : AggRow) : Prop :=
  r.city_id = cid ∧ r.date = d

/-- SQLAlchemy `query(...).filter_by(city_id, date).first()` over an
in-memory table: the first matching row. -/
def findAggRow (db : List AggRow) (cid : ℕ) (d : Ymd) : Option AggRow :=
  match db with
  | [] => Option.none
  | r :: rest => if keyMatch cid d r then Option.some r else findAggRow rest cid d

/-- Python `setattr(row, k, v)` on the modeled row fields: replace the
value at an existing column key, or add it. -/
def setField (fields : AggDict) (k : String) (v : PyVal) : AggDict :=
  match fields with
  | [] => [(k, v)]
  | (k', v') :: rest =>
    if k' = k then (k', v) :: rest else (k', v') :: setField rest k v

/-- The handler's update loop `for key, value in agg.items():
setattr(existing, key, value)` (handler.py lines 154-155). -/
def updateRowFields (fields : AggDict) (agg : AggDict) : AggDict :=
  agg.foldl (fun acc kv => setField acc kv.1 kv.2) fields

/-- Update the first row matching `(cid, d)` in place. -/
def updateFirst (db : List AggRow) (cid : ℕ) (d : Ymd) (agg : AggDict) :
    List AggRow :=
  match db with
  | [] => []
  | r :: rest =>
    if keyMatch cid d r then
      { r with fields := updateRowFields r.fields agg } :: rest
    else r :: updateFirst rest cid d agg

/-- The sync handler's persistence step (handler.py lines 147-162):
look up the existing `(city_id, date)` row; update its fields in place
when present, insert a fresh row when absent; then commit. -/
def persistAggregateSync (db : List AggRow) (cid : ℕ) (d : Ymd)
    (agg : AggDict) : List AggRow :=
  match findAggRow db cid d with
  | Option.some _ => updateFirst db cid d agg
  | Option.none => db ++ [⟨cid, d, agg⟩]

/-- `save_weather_aggregate` of
`src/app/services/aggregator_service_async.py` (lines 13-50) against an
in-memory table whose queries succeed: check whether a `(city_id, date)`
aggregate exists and insert a new row only when it does not; an existing
row is left untouched. -/
def save_weather_aggregate (db : List AggRow) (cid : ℕ) (d : Ymd)
    (agg : AggDict) : List AggRow :=
  match findAggRow db cid d with
  | Option.some _ => db
  | Option.none => db ++ [⟨cid, d, agg⟩]

/-- Behavior of the `AsyncDBService` collaborator as seen by one
persistence job: the outcome of `get_weather_aggregate` and of
`add_weather_aggregate` (either may raise). -/
structure AsyncDb where
  get_weather_aggregate : ℕ → Ymd → Except PyErr (Option AggRow)
  add_weather_aggregate : ℕ → Ymd → AggDict → Except PyErr Unit

/-- Behavior of the underlying `put_object` S3 call per key: `.error`
is a `botocore.ClientError` with its message. -/
structure AsyncS3 where
  put_object : String → Except String Unit

/-- `AsyncS3Service.put_json` (s3_service_async.py lines 32-56): returns
the `s3://` URI on success and `None` when the put raised a
`ClientError` — the error is swallowed, not raised. -/
def put_json (s3 : AsyncS3) (bucket key : String) : Option String :=
  match s3.put_object key with
  | .ok _ => Option.some ("s3://" ++ bucket ++ "/" ++ key)
  | .error _ => Option.none

/-- Effectful `save_weather_aggregate`
(aggregator_service_async.py lines 13-50): database errors propagate
(the `except` clause logs and re-raises). -/
def save_weather_aggregateA (db : AsyncDb) (cid : ℕ) (d : Ymd)
    (agg : AggDict) : Except PyErr Unit := do
  let existing ← db.get_weather_aggregate cid d
  match existing with
  | Option.some _ => .ok ()
  | Option.none => db.add_weather_aggregate cid d agg

/-- The processed-payload key
`processed/{city}/{YYYY}/{MM}/{DD}/{city}_{timestamp}.json` built by
`save_processed_payload`. -/
def processedKeyA (city : String) (d : Ymd) (ts : String) : String :=
  "processed/" ++ city ++ "/" ++ toString d.year ++ "/" ++ pad2 d.month
    ++ "/" ++ pad2 d.day ++ "/" ++ city ++ "_" ++ ts ++ ".json"

/-- `save_processed_payload` (aggregator_service_async.py lines 53-118):
guard against an empty aggregation dict and an empty source list, build
the processed key (the generation timestamp is passed in), call
`put_json` — whose return value is ignored — and return the key. -/
def save_processed_payload (s3 : AsyncS3) (bucket city_name : String)
    (d : Ymd) (agg : AggDict) (day_files : List String) (ts : String) :
    Except PyErr String :=
  if agg.isEmpty then .error .emptyAggData
  else if day_files.isEmpty then .error .noSourceFiles
  else
    let key := processedKeyA city_name d ts
    let _ := put_json s3 bucket key
    .ok key

/-- One entry of the async result set: either a per-city success record
or a per-city failure record tagged with the city. -/
inductive CityResult where
  | success (city : String) (date : String) (processed_file : String)
      (records_used : PyVal)
  | failure (city : String) (error : String)

/-- The city tag of a result entry. -/
def CityResult.city : CityResult → String
  | .success c _ _ _ => c
  | .failure c _ => c

/-- `process_city_aggregate` (aggregator_service_async.py lines
121-171): run the database save then the S3 payload save; any exception
is caught and returned as a `{"city", "error"}` entry — it is never
re-raised. -/
def process_city_aggregate (db : AsyncDb) (s3 : AsyncS3) (bucket : String)
    (city_id : ℕ) (city_name : String) (target_date : Ymd)
    (agg : AggDict) (day_files : List String) (ts : String) : CityResult :=
  match (do
      let _ ← save_weather_aggregateA db city_id target_date agg
      save_processed_payload s3 bucket city_name target_date agg day_files ts :
      Except PyErr String) with
  | .ok key =>
    .success city_name target_date.iso key
      (dictGetD agg "readings_count" (.num 0))
  | .error e => .failure city_name (errStr e)

/-- One per-city task descriptor, as built for `process_all_cities`. -/
structure CityTask where
  city_id : ℕ
  city_name : String
  target_date : Ymd
  agg : AggDict
  day_files : List String

/-- `process_all_cities` (aggregator_service_async.py lines 174-222):
every task is run to completion (`asyncio.gather` with
`return_exceptions=True` awaits them all) and, since
`process_city_aggregate` catches every exception itself, the gathered
list holds one `CityResult` per task in task order and the
`BaseException` filter removes nothing. -/
def process_all_cities (db : AsyncDb) (s3 : AsyncS3) (bucket : String)
    (ts : String) (city_tasks : List CityTask) : List CityResult :=
  city_tasks.map (fun c =>
    process_city_aggregate db s3 bucket c.city_id c.city_name
      c.target_date c.agg c.day_files ts)

/-- Code-point comparison of strings as lists of characters; agrees
with Python's string ordering used by `sorted`. -/
def charListLe : List Char → List Char → Bool
  | [], _ => true
  | _ :: _, [] => false
  | c :: cs, d :: ds => if c = d then charListLe cs ds else decide (c < d)

/-- String comparison for `sorted`. -/
def strLe (s t : String) : Bool := charListLe s.toList t.toList

/-- Insert into a sorted list of strings. -/
def insertSorted (s : String) : List String → List String
  | [] => [s]
  | t :: ts => if strLe s t then s :: t :: ts else t :: insertSorted s ts

/-- Ascending sort of strings; on duplicate-free input this equals
Python's `sorted`. -/
def sortStrings : List String → List String
  | [] => []
  | s :: ss => insertSorted s (sortStrings ss)

/-- Duplicate removal modeling the `set` accumulation of folder
prefixes; the sort applied afterwards makes the kept occurrence
irrelevant. -/
def dedupStrings : List String → List String
  | [] => []
  | s :: ss => if ss.contains s then dedupStrings ss else s :: dedupStrings ss

/-- Behavior of the sync `S3Service` and of the `City` lookup as seen
by one handler run: the outcome of listing the `raw/` folder prefixes,
the outcome of listing objects per day prefix, the `get_json` result per
key, and the database city-id lookup by name. -/
structure SyncDeps where
  listFoldersRaw : Except String (List String)
  listObjectsRaw : String → Except String (List String)
  getObject : String → Except PyErr PyVal
  cityIdOf : String → Option ℕ

/-- `S3Service.list_folders` (s3_service.py lines 45-59): the sorted
set of common prefixes, or `[]` when the listing raises a
`ClientError` — the error is swallowed. -/
def list_folders (s3 : SyncDeps) : List String :=
  match s3.listFoldersRaw with
  | .ok l => sortStrings (dedupStrings l)
  | .error _ => []

/-- `S3Service.list_objects` (s3_service.py lines 61-75): the listed
keys, or `[]` when the listing raises a `ClientError`. -/
def list_objects (s3 : SyncDeps) (pfx : String) : List String :=
  match s3.listObjectsRaw pfx with
  | .ok l => l
  | .error _ => []

/-- Python `s.strip("/")`. -/
def stripSlashes (s : String) : String :=
  String.mk ((((s.toList).dropWhile (fun c => c = '/')).reverse.dropWhile
    (fun c => c = '/')).reverse)

/-- Python `s.split("/")` on the character list. -/
def splitSlash (cs : List Char) : List (List Char) :=
  cs.foldr (fun c acc =>
    match acc with
    | [] => [[c]]
    | g :: gs => if c = '/' then [] :: (g :: gs) else (c :: g) :: gs) [[]]

/-- `city_prefix.strip("/").split("/")[-1]` (handler.py line 125). -/
def cityNameOf (cityPfx : String) : String :=
  match (splitSlash (stripSlashes cityPfx).toList).getLast? with
  | Option.some g => String.mk g
  | Option.none => ""

/-- The day prefix `raw/{city}/{year}/{month:02}/{day:02}/`
(handler.py line 126). -/
def dayPfx (city : String) (d : Ymd) : String :=
  "raw/" ++ city ++ "/" ++ toString d.year ++ "/" ++ pad2 d.month ++ "/"
    ++ pad2 d.day ++ "/"

/-- The processed key `processed/{city}/{year}/{month:02}/{day:02}/
{city}_{target_date}.json` of the sync handler (lines 164-167); note it
embeds the date, not a generation timestamp. -/
def processedKeySync (city : String) (d : Ymd) : String :=
  "processed/" ++ city ++ "/" ++ toString d.year ++ "/" ++ pad2 d.month
    ++ "/" ++ pad2 d.day ++ "/" ++ city ++ "_" ++ d.iso ++ ".json"

/-- One entry of the sync handler's `results` list
(handler.py lines 181-188). -/
structure SyncResult where
  city : String
  date : String
  processed_file : String
  records_used : ℕ
deriving DecidableEq

/-- The handler's HTTP-style response: `statusCode` 200 with the result
list, or 500 with the stringified exception. -/
inductive HandlerResp where
  | ok200 (results : List SyncResult)
  | err500 (msg : String)
deriving DecidableEq

/-- The `statusCode` field of the response. -/
def HandlerResp.statusCode : HandlerResp → ℕ
  | .ok200 _ => 200
  | .err500 _ => 500

/-- The city loop of the sync handler (handler.py lines 124-188),
threading the relational table: skip cities with no files, aggregate
(an exception here escapes the loop and aborts the run), skip cities
absent from the database, persist, record the result.  The
processed-bucket `put_json` swallows `ClientError` and its return value
is ignored, so it has no observable effect and is not modeled. -/
def processCitiesSync (deps : SyncDeps) (d : Ymd) :
    List String → List AggRow → List AggRow × Except PyErr (List SyncResult)
  | [], db => (db, .ok [])
  | cityPfx :: rest, db =>
    let city_name := cityNameOf cityPfx
    let day_files := list_objects deps (dayPfx city_name d)
    if day_files.isEmpty then processCitiesSync deps d rest db
    else
      match aggregate_city_weather city_name day_files deps.getObject with
      | .error e => (db, .error e)
      | .ok agg =>
        match deps.cityIdOf city_name with
        | Option.none => processCitiesSync deps d rest db
        | Option.some cid =>
          let db' := persistAggregateSync db cid d agg.toDict
          let res : SyncResult :=
            ⟨city_name, d.iso, processedKeySync city_name d,
             agg.readings_count⟩
          match processCitiesSync deps d rest db' with
          | (dbF, .ok results) => (dbF, .ok (res :: results))
          | (dbF, .error e) => (dbF, .error e)

/-- The protected block of the sync handler (handler.py lines 107-198):
run the city loop over the discovered prefixes; an escaping exception is
caught and turned into a `statusCode` 500 response (committed rows of
earlier cities remain). -/
def handlerRun (deps : SyncDeps) (d : Ymd) (db : List AggRow) :
    List AggRow × HandlerResp :=
  match processCitiesSync deps d (list_folders deps) db with
  | (db', .ok results) => (db', .ok200 results)
  | (db', .error e) => (db', .err500 (errStr e))

/-- `get_env_var` (handler.py lines 21-25): raise `EnvironmentError`
when the variable is unset or empty. -/
def get_env_var (env : String → Option String) (name : String) :
    Except String String :=
  match env name with
  | Option.none => .error (name ++ " environment variable not set")
  | Option.some v =>
    if v = "" then .error (name ++ " environment variable not set") else .ok v

/-- The full sync `handler` (handler.py lines 94-201): the environment
lookups (and the secret/session construction they feed, abstracted into
`deps`) happen before the `try` block, so their exceptions escape the
handler — modeled as `Except.error`; afterwards the protected block
always produces a response. -/
def handler (env : String → Option String) (deps : SyncDeps) (d : Ymd)
    (db : List AggRow) : Except String (List AggRow × HandlerResp) := do
  let _ ← get_env_var env "RAW_BUCKET_NAME"
  let _ ← get_env_var env "PROCESSED_BUCKET_NAME"
  let _ ← get_env_var env "SECRET_NAME_DB"
  .ok (handlerRun deps d db)

/-- Per-file contribution of one metric in the sync loop: the parsed
field when the file fetches, parses and the field `is not None`. -/
def selSync (sel : ParsedWeather → PyVal)
    (s3get : String → Except PyErr PyVal) (f : String) : Option PyVal :=
  match tryFetchParse s3get f with
  | Option.none => Option.none
  | Option.some w =>
    if (sel w).isNone then Option.none else Option.some (sel w)

/-- Per-file contribution of one metric in the async loop: the parsed
field when the file fetches, parses and the field is numeric. -/
def selAsync (sel : ParsedWeather → PyVal)
    (s3get : String → Except PyErr PyVal) (f : String) : Option ℚ :=
  (tryFetchParseA s3get f).bind (fun w => (sel w).asNum)

/-- Raw reading with temperatures 1/5/3, humidity 50, wind 2 and no
rain field (the spec's end-to-end scenario, first reading). -/
def payloadA : PyVal :=
  .dict [("main", .dict [("temp_min", .num 1), ("temp_max", .num 5),
                         ("temp", .num 3), ("humidity", .num 50)]),
         ("wind", .dict [("speed", .num 2)])]

/-- Raw reading with temperatures 2/6/4, humidity 60, wind 4 and rain
`1h = 1.5` (the spec's end-to-end scenario, second reading). -/
def payloadB : PyVal :=
  .dict [("main", .dict [("temp_min", .num 2), ("temp_max", .num 6),
                         ("temp", .num 4), ("humidity", .num 60)]),
         ("wind", .dict [("speed", .num 4)]),
         ("rain", .dict [("1h", .num (3/2))])]

/-- Raw store holding `payloadA` at `a.json` and `payloadB` at
`b.json`. -/
def fetchAB (f : String) : Except PyErr PyVal :=
  if f = "a.json" then .ok payloadA
  else if f = "b.json" then .ok payloadB
  else .error (.clientError "NoSuchKey")

/-- Raw reading whose `temp_min` holds the non-numeric string
`"n/a"` while `temp` is a valid number. -/
def payloadBadMin : PyVal :=
  .dict [("main", .dict [("temp_min", .str "n/a"), ("temp", .num 4)])]

/-- Raw store pairing a well-formed reading with one whose `temp_min`
is a non-numeric string. -/
def fetchBad (f : String) : Except PyErr PyVal :=
  if f = "g.json" then .ok payloadA
  else if f = "bad.json" then .ok payloadBadMin
  else .error (.clientError "NoSuchKey")

/-- Raw reading with full temperature data and wind but no humidity
field. -/
def payloadNoHum : PyVal :=
  .dict [("main", .dict [("temp_min", .num 1), ("temp_max", .num 5),
                         ("temp", .num 3)]),
         ("wind", .dict [("speed", .num 2)])]

/-- Raw store holding only the humidity-free reading. -/
def fetchNoHum (f : String) : Except PyErr PyVal :=
  if f = "n.json" then .ok payloadNoHum
  else .error (.clientError "NoSuchKey")

/-- The target date 2024-03-01 used by the concrete scenarios. -/
def d301 : Ymd := ⟨2024, 3, 1⟩

/-- First Warsaw summary of the spec's idempotence example
(`temp_avg` 5.0, `readings_count` 3). -/
def aggWarsaw1 : AggDict :=
  [("temp_min", .num 4), ("temp_max", .num 6), ("temp_avg", .num 5),
   ("humidity_avg", .num 70), ("precipitation_sum", .num 0),
   ("wind_speed_avg", .num 3), ("readings_count", .num 3)]

/-- Second Warsaw summary of the spec's idempotence example
(`temp_avg` 5.5, `readings_count` 4). -/
def aggWarsaw2 : AggDict :=
  [("temp_min", .num 4), ("temp_max", .num 6), ("temp_avg", .num (11/2)),
   ("humidity_avg", .num 70), ("precipitation_sum", .num 0),
   ("wind_speed_avg", .num 3), ("readings_count", .num 4)]

/-- Concrete summary record carrying the first Warsaw example values. -/
def sumW1 : DailySummary :=
  ⟨.num 4, .num 6, .num 5, .num 70, .num 0, .num 3, 3⟩

/-- Concrete summary record carrying the second Warsaw example
values. -/
def sumW2 : DailySummary :=
  ⟨.num 4, .num 6, .num (11/2), .num 70, .num 0, .num 3, 4⟩

/-- Two-city environment: `athens` has one raw blob that parses to an
object with no usable metrics, `berlin` has one well-formed blob; both
cities exist in the database. -/
def depsTwoCities : SyncDeps :=
  { listFoldersRaw := .ok ["raw/athens/", "raw/berlin/"]
    listObjectsRaw := fun pfx =>
      if pfx = "raw/athens/2024/03/01/" then
        .ok ["raw/athens/2024/03/01/a1.json"]
      else if pfx = "raw/berlin/2024/03/01/" then
        .ok ["raw/berlin/2024/03/01/b1.json"]
      else .ok []
    getObject := fun k =>
      if k = "raw/athens/2024/03/01/a1.json" then .ok (.dict [])
      else if k = "raw/berlin/2024/03/01/b1.json" then .ok payloadB
      else .error (.clientError "NoSuchKey")
    cityIdOf := fun c =>
      if c = "athens" then Option.some 1
      else if c = "berlin" then Option.some 2
      else Option.none }

/-- Environment whose blob store is unreachable: every listing call
raises a `ClientError`, and `berlin` would have data if the store were
reachable. -/
def depsUnreachable : SyncDeps :=
  { listFoldersRaw := .error "Could not connect to the endpoint URL"
    listObjectsRaw := fun _ => .error "Could not connect to the endpoint URL"
    getObject := fun _ => .error (.clientError "Could not connect")
    cityIdOf := fun _ => Option.some 2 }

/-- Environment mapping every variable to a set value. -/
def envAll : String → Option String := fun _ => Option.some "configured"

/-- Environment with the raw-bucket variable unset. -/
def envNoRaw : String → Option String := fun n =>
  if n = "RAW_BUCKET_NAME" then Option.none else Option.some "configured"

/-- Database behavior for the three-job fan-out scenario: lookups find
nothing and the insert raises exactly for city id 2. -/
def dbJob2Fails : AsyncDb :=
  { get_weather_aggregate := fun _ _ => .ok Option.none
    add_weather_aggregate := fun cid _ _ =>
      if cid = 2 then .error (.exc "db write failed") else .ok () }

/-- S3 behavior whose puts succeed. -/
def s3PutOk : AsyncS3 := ⟨fun _ => .ok ()⟩

/-- S3 behavior whose every put raises a `ClientError`. -/
def s3PutFails : AsyncS3 := ⟨fun _ => .error "AccessDenied"⟩

/-- Database behavior whose lookups find nothing and whose inserts
succeed. -/
def dbAllOk : AsyncDb :=
  { get_weather_aggregate := fun _ _ => .ok Option.none
    add_weather_aggregate := fun _ _ _ => .ok () }

/-- A minimal nonempty aggregation dict for fan-out scenarios. -/
def aggSmall : AggDict := [("readings_count", .num 2)]

/-- The three tasks of the fan-out isolation scenario; the middle one
targets city id 2, whose insert raises. -/
def tasksThree : List CityTask :=
  [⟨1, "city1", d301, aggSmall, ["f1"]⟩,
   ⟨2, "city2", d301, aggSmall, ["f2"]⟩,
   ⟨3, "city3", d301, aggSmall, ["f3"]⟩]

/-- Raw store where every fetch raises, used to witness aggregation
over files none of which yields a reading. -/
def fetchAlwaysFails (_ : String) : Except PyErr PyVal :=
  .error (.clientError "NoSuchKey")

/-- Round a nonnegative rational scaled into `[2^52, 2^53)` to an
integer significand, ties to even (the IEEE-754 default rounding). -/
def roundHalfEven (s : ℚ) : ℤ :=
  if s - ⌊s⌋ < 1/2 then ⌊s⌋
  else if 1/2 < s - ⌊s⌋ then ⌊s⌋ + 1
  else if 2 ∣ ⌊s⌋ then ⌊s⌋ else ⌊s⌋ + 1

/-- IEEE-754 binary64 rounding (round to nearest, ties to even) of a
rational in the normal finite range: scale the magnitude into
`[2^52, 2^53)` by its binary exponent, round to a 53-bit significand,
and scale back.  Subnormal underflow and overflow to infinity are
outside the values the scenarios use. -/
def roundF (q : ℚ) : ℚ :=
  if q = 0 then 0
  else if 0 < q then
    (roundHalfEven (q * 2 ^ ((52 : ℤ) - Int.log 2 q)) : ℚ)
      * 2 ^ (Int.log 2 q - 52)
  else
    -((roundHalfEven (-q * 2 ^ ((52 : ℤ) - Int.log 2 (-q))) : ℚ)
      * 2 ^ (Int.log 2 (-q) - 52))

/-- One Python float addition: the exact sum rounded to binary64. -/
def fadd (a b : ℚ) : ℚ := roundF (a + b)

/-- Python's built-in `sum` over a list of floats at the bit level: the
left fold of correctly rounded double additions starting from `0`, as
performed by `sum(precipitations)` in `aggregate_city_weather` and
`sum(metrics["precipitation"])` in `aggregate_city_weather_async`. -/
def fsum (l : List ℚ) : ℚ := l.foldl fadd 0

/-- The binary64 value of the float literal `0.1`:
`3602879701896397 * 2^-55`. -/
def q01 : ℚ := 3602879701896397 / 2 ^ 55

/-- The binary64 value of the float literal `0.2`:
`3602879701896397 * 2^-54`. -/
def q02 : ℚ := 3602879701896397 / 2 ^ 54

/-- The binary64 value of the float literal `0.3`:
`5404319552844595 * 2^-54`. -/
def q03 : ℚ := 5404319552844595 / 2 ^ 54

/-- Raw reading with a temperature and rain `1h` equal to the double
`0.1`. -/
def payloadR1 : PyVal :=
  .dict [("main", .dict [("temp", .num 1)]),
         ("rain", .dict [("1h", .num q01)])]

/-- Raw reading with a temperature and rain `1h` equal to the double
`0.2`. -/
def payloadR2 : PyVal :=
  .dict [("main", .dict [("temp", .num 1)]),
         ("rain", .dict [("1h", .num q02)])]

/-- Raw reading with a temperature and rain `1h` equal to the double
`0.3`. -/
def payloadR3 : PyVal :=
  .dict [("main", .dict [("temp", .num 1)]),
         ("rain", .dict [("1h", .num q03)])]

/-- Raw store holding the three rain readings. -/
def fetchRain (f : String) : Except PyErr PyVal :=
  if f = "r1.json" then .ok payloadR1
  else if f = "r2.json" then .ok payloadR2
  else if f = "r3.json" then .ok payloadR3
  else .error (.clientError "NoSuchKey")

/-- The sync accumulator lists written as one filter over the input
files per metric: a file contributes its parsed field exactly when it
fetches, parses, and the field `is not None`. -/
def syncCollected (s3get : String → Except PyErr PyVal)
    (files : List String) : SyncMetrics :=
  ⟨files.filterMap (selSync (fun w => w.temp_min) s3get),
   files.filterMap (selSync (fun w => w.temp_max) s3get),
   files.filterMap (selSync (fun w => w.temp_avg) s3get),
   files.filterMap (selSync (fun w => w.humidity) s3get),
   files.filterMap (selSync (fun w => w.precipitation) s3get),
   files.filterMap (selSync (fun w => w.wind_speed) s3get)⟩

/-- The async accumulator lists written as one filter over the input
files per metric: a file contributes its parsed field exactly when it
fetches, parses, and the field is numeric. -/
def asyncCollected (s3get : String → Except PyErr PyVal)
    (files : List String) : AsyncMetrics :=
  ⟨files.filterMap (selAsync (fun w => w.temp_min) s3get),
   files.filterMap (selAsync (fun w => w.temp_max) s3get),
   files.filterMap (selAsync (fun w => w.temp_avg) s3get),
   files.filterMap (selAsync (fun w => w.humidity) s3get),
   files.filterMap (selAsync (fun w => w.precipitation) s3get),
   files.filterMap (selAsync (fun w => w.wind_speed) s3get)⟩

/-- A left fold by a right-commutative function is invariant under
permutation of the list. -/
theorem foldl_perm {α β : Type} {f : β → α → β}
    (hf : ∀ b x y, f (f b x) y = f (f b y) x) :
    ∀ {l₁ l₂ : List α}, l₁.Perm l₂ → ∀ b, l₁.foldl f b = l₂.foldl f b := by
  intro l₁ l₂ h
  induction h with
  | nil => intro b; rfl
  | cons x _ ih => intro b; simp only [List.foldl_cons]; exact ih _
  | swap x y l => intro b; simp only [List.foldl_cons, hf]
  | trans _ _ ih₁ ih₂ => intro b; rw [ih₁, ih₂]

/-- A Boolean `all` is invariant under permutation. -/
theorem all_perm {α : Type} {p : α → Bool} {l₁ l₂ : List α}
    (h : l₁.Perm l₂) : l₁.all p = l₂.all p := by
  induction h with
  | nil => rfl
  | cons x _ ih => simp only [List.all_cons, ih]
  | swap x y l =>
    cases hx : p x <;> cases hy : p y <;> simp [List.all_cons, hx, hy]
  | trans _ _ ih₁ ih₂ => rw [ih₁, ih₂]

/-- The running-minimum merge is right-commutative. -/
theorem omin_rightComm {α : Type} [LinearOrder α]
    (b : Option α) (x y : α) : omin (omin b x) y = omin (omin b y) x := by
  cases b with
  | none => simp [omin, min_comm]
  | some a => simp [omin, min_assoc, min_comm x y]

/-- The running-maximum merge is right-commutative. -/
theorem omax_rightComm {α : Type} [LinearOrder α]
    (b : Option α) (x y : α) : omax (omax b x) y = omax (omax b y) x := by
  cases b with
  | none => simp [omax, max_comm]
  | some a => simp [omax, max_assoc, max_comm x y]

/-- The list minimum is invariant under permutation. -/
theorem listMin_perm {α : Type} [LinearOrder α] {l₁ l₂ : List α}
    (h : l₁.Perm l₂) : listMin l₁ = listMin l₂ :=
  foldl_perm omin_rightComm h Option.none

/-- The list maximum is invariant under permutation. -/
theorem listMax_perm {α : Type} [LinearOrder α] {l₁ l₂ : List α}
    (h : l₁.Perm l₂) : listMax l₁ = listMax l₂ :=
  foldl_perm omax_rightComm h Option.none

/-- The multi-element Python `min` is invariant under permutation. -/
theorem pyMinMulti_perm {l₁ l₂ : List PyVal} (h : l₁.Perm l₂) :
    pyMinMulti l₁ = pyMinMulti l₂ := by
  unfold pyMinMulti
  rw [all_perm h, all_perm h, listMin_perm (h.filterMap PyVal.asNum),
    listMin_perm (h.filterMap PyVal.asStr)]

/-- The multi-element Python `max` is invariant under permutation. -/
theorem pyMaxMulti_perm {l₁ l₂ : List PyVal} (h : l₁.Perm l₂) :
    pyMaxMulti l₁ = pyMaxMulti l₂ := by
  unfold pyMaxMulti
  rw [all_perm h, all_perm h, listMax_perm (h.filterMap PyVal.asNum),
    listMax_perm (h.filterMap PyVal.asStr)]

/-- A list permuted from a one-element list is that list. -/
theorem eq_of_perm_length_one {α : Type} {l₁ l₂ : List α}
    (h : l₁.Perm l₂) (hl : l₁.length = 1) : l₁ = l₂ := by
  match l₁, hl with
  | [a], _ =>
    have := h.symm.eq_singleton
    simp [this]

/-- Python `min` on embedded values is invariant under permutation. -/
theorem pyMin_perm {l₁ l₂ : List PyVal} (h : l₁.Perm l₂) :
    pyMin l₁ = pyMin l₂ := by
  unfold pyMin
  rw [h.isEmpty_eq, h.length_eq]
  by_cases h1 : l₂.length = 1
  · rw [eq_of_perm_length_one h (h.length_eq.trans h1)]
  · simp only [h1, if_false, pyMinMulti_perm h]

/-- Python `max` on embedded values is invariant under permutation. -/
theorem pyMax_perm {l₁ l₂ : List PyVal} (h : l₁.Perm l₂) :
    pyMax l₁ = pyMax l₂ := by
  unfold pyMax
  rw [h.isEmpty_eq, h.length_eq]
  by_cases h1 : l₂.length = 1
  · rw [eq_of_perm_length_one h (h.length_eq.trans h1)]
  · simp only [h1, if_false, pyMaxMulti_perm h]

/-- Python `statistics.mean` on embedded values is invariant under
permutation. -/
theorem pyMean_perm {l₁ l₂ : List PyVal} (h : l₁.Perm l₂) :
    pyMean l₁ = pyMean l₂ := by
  unfold pyMean
  rw [h.isEmpty_eq, all_perm h, (h.filterMap PyVal.asNum).sum_eq,
    h.length_eq]

/-- Python `sum` on embedded values is invariant under permutation. -/
theorem pySum_perm {l₁ l₂ : List PyVal} (h : l₁.Perm l₂) :
    pySum l₁ = pySum l₂ := by
  unfold pySum
  rw [all_perm h, (h.filterMap PyVal.asNum).sum_eq]

/-- Python `min` on floats is invariant under permutation. -/
theorem qMinE_perm {l₁ l₂ : List ℚ} (h : l₁.Perm l₂) :
    qMinE l₁ = qMinE l₂ := by
  unfold qMinE; rw [listMin_perm h]

/-- Python `max` on floats is invariant under permutation. -/
theorem qMaxE_perm {l₁ l₂ : List ℚ} (h : l₁.Perm l₂) :
    qMaxE l₁ = qMaxE l₂ := by
  unfold qMaxE; rw [listMax_perm h]

/-- Python `statistics.mean` on floats is invariant under
permutation. -/
theorem qMeanE_perm {l₁ l₂ : List ℚ} (h : l₁.Perm l₂) :
    qMeanE l₁ = qMeanE l₂ := by
  unfold qMeanE; rw [h.isEmpty_eq, h.sum_eq, h.length_eq]

/-- Unfolding of `filterMap` through `Option.toList`. -/
theorem filterMap_cons_toList {α β : Type} (f : α → Option β) (a : α)
    (l : List α) :
    List.filterMap f (a :: l) = (f a).toList ++ List.filterMap f l := by
  cases h : f a <;> simp [List.filterMap_cons, h]

/-- Appending a present value commutes with a trailing append. -/
theorem appendIfPresent_assoc (x : List PyVal) (v : PyVal)
    (t : List PyVal) :
    appendIfPresent x v ++ t
      = x ++ (Option.toList (if v.isNone then Option.none
          else Option.some v) ++ t) := by
  by_cases hv : v.isNone <;> simp [appendIfPresent, hv]

/-- Evaluation of a sync selector on a file that yields a reading. -/
theorem selSync_eval {s3get : String → Except PyErr PyVal} {f : String}
    {w : ParsedWeather} (sel : ParsedWeather → PyVal)
    (hw : tryFetchParse s3get f = Option.some w) :
    selSync sel s3get f
      = if (sel w).isNone then Option.none else Option.some (sel w) := by
  simp [selSync, hw]

/-- Evaluation of an async selector on a file that yields a reading. -/
theorem selAsync_eval {s3get : String → Except PyErr PyVal} {f : String}
    {w : ParsedWeather} (sel : ParsedWeather → PyVal)
    (hw : tryFetchParseA s3get f = Option.some w) :
    selAsync sel s3get f = (sel w).asNum := by
  simp [selAsync, hw]

/-- The sync collection loop computes, per metric, the filter of the
file list by the corresponding selector, regardless of the initial
accumulators. -/
theorem collectSync_from (s3get : String → Except PyErr PyVal) :
    ∀ (files : List String) (m : SyncMetrics),
    files.foldl (syncFold s3get) m =
      ⟨m.temps_min ++ (syncCollected s3get files).temps_min,
       m.temps_max ++ (syncCollected s3get files).temps_max,
       m.temps_avg ++ (syncCollected s3get files).temps_avg,
       m.humidities ++ (syncCollected s3get files).humidities,
       m.precipitations ++ (syncCollected s3get files).precipitations,
       m.winds ++ (syncCollected s3get files).winds⟩ := by
  intro files
  induction files with
  | nil => intro m; simp [syncCollected]
  | cons f fs ih =>
    intro m
    rw [List.foldl_cons, ih]
    cases hw : tryFetchParse s3get f with
    | none =>
      simp [syncFold, hw, syncCollected, selSync, filterMap_cons_toList]
    | some w =>
      simp only [syncFold, hw, syncCollected, filterMap_cons_toList,
        selSync_eval _ hw, syncStep, SyncMetrics.mk.injEq]
      exact ⟨appendIfPresent_assoc _ _ _, appendIfPresent_assoc _ _ _,
        appendIfPresent_assoc _ _ _, appendIfPresent_assoc _ _ _,
        appendIfPresent_assoc _ _ _, appendIfPresent_assoc _ _ _⟩

/-- The sync accumulator lists are exactly the per-metric filters of
the file list. -/
theorem collectSync_eq (s3get : String → Except PyErr PyVal)
    (files : List String) :
    collectSync s3get files = syncCollected s3get files := by
  rw [collectSync, collectSync_from]
  simp [SyncMetrics.empty]

/-- The async collection loop computes, per metric, the filter of the
file list by the corresponding selector, regardless of the initial
accumulators. -/
theorem collectAsync_from (s3get : String → Except PyErr PyVal) :
    ∀ (files : List String) (m : AsyncMetrics),
    files.foldl (asyncFold s3get) m =
      ⟨m.temps_min ++ (asyncCollected s3get files).temps_min,
       m.temps_max ++ (asyncCollected s3get files).temps_max,
       m.temps_avg ++ (asyncCollected s3get files).temps_avg,
       m.humidities ++ (asyncCollected s3get files).humidities,
       m.precipitations ++ (asyncCollected s3get files).precipitations,
       m.winds ++ (asyncCollected s3get files).winds⟩ := by
  intro files
  induction files with
  | nil => intro m; simp [asyncCollected]
  | cons f fs ih =>
    intro m
    rw [List.foldl_cons, ih]
    cases hw : tryFetchParseA s3get f with
    | none =>
      simp [asyncFold, hw, asyncCollected, selAsync, filterMap_cons_toList]
    | some w =>
      simp [asyncFold, hw, asyncCollected, filterMap_cons_toList,
        selAsync_eval _ hw, asyncStep]

/-- The async accumulator lists are exactly the per-metric filters of
the file list. -/
theorem collectAsync_eq (s3get : String → Except PyErr PyVal)
    (files : List String) :
    collectAsync s3get files = asyncCollected s3get files := by
  rw [collectAsync, collectAsync_from]
  simp [AsyncMetrics.empty]

/-- The sync summary phase depends on the accumulator lists only up to
permutation. -/
theorem summarize_perm (city : String) {m₁ m₂ : SyncMetrics}
    (h1 : m₁.temps_min.Perm m₂.temps_min)
    (h2 : m₁.temps_max.Perm m₂.temps_max)
    (h3 : m₁.temps_avg.Perm m₂.temps_avg)
    (h4 : m₁.humidities.Perm m₂.humidities)
    (h5 : m₁.precipitations.Perm m₂.precipitations)
    (h6 : m₁.winds.Perm m₂.winds) :
    summarize city m₁ = summarize city m₂ := by
  unfold summarize
  rw [h3.isEmpty_eq, pyMin_perm h1, pyMax_perm h2, pyMean_perm h3,
    pyMean_perm h4, pySum_perm h5, pyMean_perm h6, h3.length_eq]

/-- The async summary phase depends on the accumulator lists only up to
permutation. -/
theorem summarizeA_perm (city : String) {m₁ m₂ : AsyncMetrics}
    (h1 : m₁.temps_min.Perm m₂.temps_min)
    (h2 : m₁.temps_max.Perm m₂.temps_max)
    (h3 : m₁.temps_avg.Perm m₂.temps_avg)
    (h4 : m₁.humidities.Perm m₂.humidities)
    (h5 : m₁.precipitations.Perm m₂.precipitations)
    (h6 : m₁.winds.Perm m₂.winds) :
    summarizeA city m₁ = summarizeA city m₂ := by
  unfold summarizeA
  rw [h3.isEmpty_eq, qMinE_perm h1, qMaxE_perm h2, qMeanE_perm h3,
    qMeanE_perm h4, h5.sum_eq, qMeanE_perm h6, h3.length_eq]

/-- Inversion of a successful `Except` bind. -/
theorem except_bind_ok {ε α β : Type} {x : Except ε α}
    {f : α → Except ε β} {b : β} (h : (x >>= f) = .ok b) :
    ∃ a, x = .ok a ∧ f a = .ok b := by
  cases x with
  | error e => simp [Bind.bind, Except.bind] at h
  | ok a => exact ⟨a, rfl, by simpa [Bind.bind, Except.bind] using h⟩

/-- A successful sync summary needs nonempty humidity and wind lists:
their means are computed unconditionally. -/
theorem summarize_ok_ne_nil {city : String} {m : SyncMetrics}
    {s : DailySummary} (h : summarize city m = .ok s) :
    m.humidities ≠ [] ∧ m.winds ≠ [] := by
  unfold summarize at h
  by_cases he : m.temps_avg.isEmpty
  · simp [he] at h
  · simp only [he, if_false] at h
    obtain ⟨v1, hx1, h⟩ := except_bind_ok h
    obtain ⟨v2, hx2, h⟩ := except_bind_ok h
    obtain ⟨v3, hx3, h⟩ := except_bind_ok h
    obtain ⟨v4, hx4, h⟩ := except_bind_ok h
    obtain ⟨v5, hx5, h⟩ := except_bind_ok h
    obtain ⟨v6, hx6, h⟩ := except_bind_ok h
    constructor
    · intro hnil; rw [hnil] at hx4; simp [pyMean] at hx4
    · intro hnil; rw [hnil] at hx6; simp [pyMean] at hx6

/-- A successful async summary needs nonempty humidity and wind lists:
their means are computed unconditionally. -/
theorem summarizeA_ok_ne_nil {city : String} {m : AsyncMetrics}
    {s : DailySummaryA} (h : summarizeA city m = .ok s) :
    m.humidities ≠ [] ∧ m.winds ≠ [] := by
  unfold summarizeA at h
  by_cases he : m.temps_avg.isEmpty
  · simp [he] at h
  · simp only [he, if_false] at h
    obtain ⟨v1, hx1, h⟩ := except_bind_ok h
    obtain ⟨v2, hx2, h⟩ := except_bind_ok h
    obtain ⟨v3, hx3, h⟩ := except_bind_ok h
    obtain ⟨v4, hx4, h⟩ := except_bind_ok h
    obtain ⟨v5, hx5, h⟩ := except_bind_ok h
    constructor
    · intro hnil; rw [hnil] at hx4; simp [qMeanE] at hx4
    · intro hnil; rw [hnil] at hx5; simp [qMeanE] at hx5

/-- A table with no `(cid, d)` row makes the lookup miss. -/
theorem findAggRow_none {db : List AggRow} {cid : ℕ} {d : Ymd}
    (h : ∀ r ∈ db, ¬keyMatch cid d r) :
    findAggRow db cid d = Option.none := by
  induction db with
  | nil => rfl
  | cons r rest ih =>
    have hr : ¬keyMatch cid d r := h r (by simp)
    simp only [findAggRow, hr, if_false]
    exact ih (fun r' hr' => h r' (by simp [hr']))

/-- Appending the first `(cid, d)` row makes the lookup find it. -/
theorem findAggRow_append {db : List AggRow} {cid : ℕ} {d : Ymd}
    (h : ∀ r ∈ db, ¬keyMatch cid d r) (row : AggRow)
    (hrow : keyMatch cid d row) :
    findAggRow (db ++ [row]) cid d = Option.some row := by
  induction db with
  | nil => simp [findAggRow, hrow]
  | cons r rest ih =>
    have hr : ¬keyMatch cid d r := h r (by simp)
    simp only [List.cons_append, findAggRow, hr, if_false]
    exact ih (fun r' hr' => h r' (by simp [hr']))

/-- Updating the first `(cid, d)` row in a table whose only such row is
the appended one touches exactly that row. -/
theorem updateFirst_append {db : List AggRow} {cid : ℕ} {d : Ymd}
    (h : ∀ r ∈ db, ¬keyMatch cid d r) (row : AggRow)
    (hrow : keyMatch cid d row) (agg : AggDict) :
    updateFirst (db ++ [row]) cid d agg
      = db ++ [{ row with fields := updateRowFields row.fields agg }] := by
  induction db with
  | nil => simp [updateFirst, hrow]
  | cons r rest ih =>
    have hr : ¬keyMatch cid d r := h r (by simp)
    simp only [List.cons_append, updateFirst, hr, if_false,
      List.cons.injEq, true_and]
    exact ih (fun r' hr' => h r' (by simp [hr']))

/-- Setting every column of one summary dict on another summary dict
yields the new dict: the two share the same column keys. -/
theorem updateRowFields_toDict (s1 s2 : DailySummary) :
    updateRowFields s1.toDict s2.toDict = s2.toDict := by
  simp [DailySummary.toDict, updateRowFields, setField]

/-- The integer `e` with `2^e ≤ q < 2^(e+1)` is the binary logarithm
floor used by the rounding model. -/
theorem int_log2_eq {q : ℚ} {e : ℤ} (hq : 0 < q)
    (h1 : (2:ℚ) ^ e ≤ q) (h2 : q < (2:ℚ) ^ (e + 1)) : Int.log 2 q = e := by
  have hb : (1:ℕ) < 2 := by norm_num
  have hl : ((2:ℕ):ℚ) ^ Int.log 2 q ≤ q := Int.zpow_log_le_self hb hq
  have hu : q < ((2:ℕ):ℚ) ^ (Int.log 2 q + 1) :=
    Int.lt_zpow_succ_log_self hb q
  have h3 : (2:ℚ) ^ Int.log 2 q < (2:ℚ) ^ (e + 1) :=
    lt_of_le_of_lt (by exact_mod_cast hl) h2
  have h4 : (2:ℚ) ^ e < (2:ℚ) ^ (Int.log 2 q + 1) :=
    lt_of_le_of_lt h1 (by exact_mod_cast hu)
  have h5 := (zpow_lt_zpow_iff_right₀ (by norm_num : (1:ℚ) < 2)).mp h3
  have h6 := (zpow_lt_zpow_iff_right₀ (by norm_num : (1:ℚ) < 2)).mp h4
  omega

/-- Unfolding of the binary64 rounding at a positive value whose
binary exponent is supplied. -/
theorem roundF_pos (q : ℚ) (e : ℤ) (hq : 0 < q)
    (h1 : (2:ℚ) ^ e ≤ q) (h2 : q < (2:ℚ) ^ (e + 1)) :
    roundF q
      = (roundHalfEven (q * 2 ^ ((52:ℤ) - e)) : ℚ) * 2 ^ (e - 52) := by
  rw [roundF, if_neg (ne_of_gt hq), if_pos hq, int_log2_eq hq h1 h2]

/-- Ties-to-even rounding of an integer is the integer. -/
theorem roundHalfEven_int (f : ℤ) : roundHalfEven (f : ℚ) = f := by
  simp [roundHalfEven]

/-- Ties-to-even rounding below the halfway point rounds down. -/
theorem roundHalfEven_of_lt {s : ℚ} {f : ℤ} (h1 : (f:ℚ) ≤ s)
    (h2 : s < f + 1/2) : roundHalfEven s = f := by
  have hf : ⌊s⌋ = f := Int.floor_eq_iff.mpr ⟨h1, by linarith⟩
  rw [roundHalfEven, hf, if_pos (by linarith)]

/-- Ties-to-even rounding at the halfway point above an odd integer
rounds up. -/
theorem roundHalfEven_half_odd {s : ℚ} {f : ℤ} (h : s = f + 1/2)
    (ho : ¬ 2 ∣ f) : roundHalfEven s = f + 1 := by
  have hf : ⌊s⌋ = f := Int.floor_eq_iff.mpr ⟨by linarith, by linarith⟩
  rw [roundHalfEven, hf, if_neg (by rw [h]; norm_num),
    if_neg (by rw [h]; norm_num), if_neg ho]

/-- The float sum of the doubles 0.1, 0.2, 0.3 in that order:
`0.1 + 0.2` rounds up to `0.30000000000000004`, and adding `0.3` rounds
up again, giving the double `0.6000000000000001`. -/
theorem fsum_123 : fsum [q01, q02, q03] = 5404319552844596 / 2 ^ 53 := by
  have h1 : fadd 0 q01 = q01 := by
    rw [fadd, zero_add,
      roundF_pos q01 (-4) (by norm_num [q01]) (by norm_num [q01])
        (by norm_num [q01]),
      show q01 * 2 ^ ((52:ℤ) - (-4)) = ((7205759403792794 : ℤ) : ℚ) by
        norm_num [q01],
      roundHalfEven_int]
    norm_num [q01]
  have h2 : fadd q01 q02 = 5404319552844596 / 2 ^ 54 := by
    rw [fadd,
      show q01 + q02 = 10808639105689191 / 2 ^ 55 by norm_num [q01, q02],
      roundF_pos _ (-2) (by norm_num) (by norm_num) (by norm_num),
      show (10808639105689191 / 2 ^ 55 : ℚ) * 2 ^ ((52:ℤ) - (-2))
          = (5404319552844595 : ℤ) + 1/2 by norm_num,
      roundHalfEven_half_odd rfl (by decide)]
    norm_num
  have h3 : fadd (5404319552844596 / 2 ^ 54) q03
      = 5404319552844596 / 2 ^ 53 := by
    rw [fadd,
      show (5404319552844596 / 2 ^ 54 : ℚ) + q03
          = 10808639105689191 / 2 ^ 54 by norm_num [q03],
      roundF_pos _ (-1) (by norm_num) (by norm_num) (by norm_num),
      show (10808639105689191 / 2 ^ 54 : ℚ) * 2 ^ ((52:ℤ) - (-1))
          = (5404319552844595 : ℤ) + 1/2 by norm_num,
      roundHalfEven_half_odd rfl (by decide)]
    norm_num
  show fadd (fadd (fadd 0 q01) q02) q03 = _
  rw [h1, h2, h3]

/-- The float sum of the doubles 0.3, 0.2, 0.1 in that order:
`0.3 + 0.2` is exactly `0.5`, and adding `0.1` rounds down, giving the
double `0.6`. -/
theorem fsum_321 : fsum [q03, q02, q01] = 5404319552844595 / 2 ^ 53 := by
  have h1 : fadd 0 q03 = q03 := by
    rw [fadd, zero_add,
      roundF_pos q03 (-2) (by norm_num [q03]) (by norm_num [q03])
        (by norm_num [q03]),
      show q03 * 2 ^ ((52:ℤ) - (-2)) = ((5404319552844595 : ℤ) : ℚ) by
        norm_num [q03],
      roundHalfEven_int]
    norm_num [q03]
  have h2 : fadd q03 q02 = 1/2 := by
    rw [fadd, show q03 + q02 = 1/2 by norm_num [q03, q02],
      roundF_pos _ (-1) (by norm_num) (by norm_num) (by norm_num),
      show (1/2 : ℚ) * 2 ^ ((52:ℤ) - (-1)) = ((4503599627370496 : ℤ) : ℚ)
        by norm_num,
      roundHalfEven_int]
    norm_num
  have h3 : fadd (1/2) q01 = 5404319552844595 / 2 ^ 53 := by
    rw [fadd,
      show (1/2 : ℚ) + q01 = 21617278211378381 / 2 ^ 55 by
        norm_num [q01],
      roundF_pos _ (-1) (by norm_num) (by norm_num) (by norm_num),
      roundHalfEven_of_lt (f := 5404319552844595) (by norm_num)
        (by norm_num)]
    norm_num
  show fadd (fadd (fadd 0 q03) q02) q01 = _
  rw [h1, h2, h3]

/-- C3 counterexample: three readings whose precipitations are the
doubles 0.1, 0.2, 0.3 refute bit-identical order independence: the two
file orders are permutations of one another and collect the same
precipitation values in opposite order, yet the program's built-in
float sum of the collected list differs between the two orders
(`0.6000000000000001` versus `0.6`), so the persisted
`precipitation_sum` — and hence the `DailySummary` — is not
bit-identical across permutations. -/
theorem C3_counterexample :
    (["r1.json", "r2.json", "r3.json"] : List String).Perm
      ["r3.json", "r2.json", "r1.json"] ∧
    (collectSync fetchRain
        ["r1.json", "r2.json", "r3.json"]).precipitations.filterMap
      PyVal.asNum = [q01, q02, q03] ∧
    (collectSync fetchRain
        ["r3.json", "r2.json", "r1.json"]).precipitations.filterMap
      PyVal.asNum = [q03, q02, q01] ∧
    fsum [q01, q02, q03] ≠ fsum [q03, q02, q01] := by
  refine ⟨(List.reverse_perm ["r1.json", "r2.json", "r3.json"]).symm,
    rfl, rfl, ?_⟩
  rw [fsum_123, fsum_321]
  norm_num

/-- C3 (amended): aggregation is order-independent in the exact
arithmetic of the embedding — min, max, the exact-fraction
`statistics.mean`, the exact sum and the count are all permutation
invariant, for both paths — but the program's `precipitation_sum` is
computed by the built-in float `sum`, a left fold of IEEE-754 double
additions, which is not permutation-invariant at the bit level: the
collected rain values 0.1, 0.2, 0.3 sum to different doubles in the two
orders, so the resulting summary is not bit-identical. -/
theorem C3_amended_order_independence :
    (∀ (city : String) (s3get : String → Except PyErr PyVal)
      (files₁ files₂ : List String), files₁.Perm files₂ →
      aggregate_city_weather city files₁ s3get
        = aggregate_city_weather city files₂ s3get ∧
      aggregate_city_weather_async city files₁ s3get
        = aggregate_city_weather_async city files₂ s3get) ∧
    fsum [q01, q02, q03] ≠ fsum [q03, q02, q01] := by
  constructor
  · intro city s3get files₁ files₂ h
    constructor
    · unfold aggregate_city_weather
      rw [collectSync_eq, collectSync_eq]
      exact summarize_perm city (h.filterMap _) (h.filterMap _)
        (h.filterMap _) (h.filterMap _) (h.filterMap _) (h.filterMap _)
    · unfold aggregate_city_weather_async
      rw [collectAsync_eq, collectAsync_eq]
      exact summarizeA_perm city (h.filterMap _) (h.filterMap _)
        (h.filterMap _) (h.filterMap _) (h.filterMap _) (h.filterMap _)
  · rw [fsum_123, fsum_321]
    norm_num

/-- Witness for C3 (amended) at a concrete two-file store and its
swap. -/
theorem C3_witness :
    aggregate_city_weather "c" ["a.json", "b.json"] fetchAB
      = aggregate_city_weather "c" ["b.json", "a.json"] fetchAB ∧
    aggregate_city_weather_async "c" ["a.json", "b.json"] fetchAB
      = aggregate_city_weather_async "c" ["b.json", "a.json"] fetchAB :=
  C3_amended_order_independence.1 "c" fetchAB _ _
    (List.Perm.swap "b.json" "a.json" [])

/-- C4: aggregation over an empty file list, and over a non-empty list
none of whose files yields a usable average temperature, fails with the
NoValidData error in both the sync and the async paths; no summary is
returned. -/
theorem C4_no_valid_data_fails (city : String)
    (s3get : String → Except PyErr PyVal) :
    aggregate_city_weather city [] s3get = .error (.noValidData city) ∧
    aggregate_city_weather_async city [] s3get
      = .error (.noValidData city) ∧
    (∀ files : List String,
      (∀ f ∈ files, ∀ w, tryFetchParse s3get f = Option.some w →
        w.temp_avg.isNone = true) →
      aggregate_city_weather city files s3get
        = .error (.noValidData city)) ∧
    (∀ files : List String,
      (∀ f ∈ files, ∀ w, tryFetchParseA s3get f = Option.some w →
        w.temp_avg.asNum = Option.none) →
      aggregate_city_weather_async city files s3get
        = .error (.noValidData city)) := by
  refine ⟨rfl, rfl, ?_, ?_⟩
  · intro files habs
    unfold aggregate_city_weather
    rw [collectSync_eq]
    have hnil : (syncCollected s3get files).temps_avg = [] := by
      simp only [syncCollected]
      rw [List.filterMap_eq_nil_iff]
      intro f hf
      cases hw : tryFetchParse s3get f with
      | none => simp [selSync, hw]
      | some w => simp [selSync, hw, habs f hf w hw]
    simp [summarize, hnil]
  · intro files habs
    unfold aggregate_city_weather_async
    rw [collectAsync_eq]
    have hnil : (asyncCollected s3get files).temps_avg = [] := by
      simp only [asyncCollected]
      rw [List.filterMap_eq_nil_iff]
      intro f hf
      cases hw : tryFetchParseA s3get f with
      | none => simp [selAsync, hw]
      | some w => simp [selAsync, hw, habs f hf w hw]
    simp [summarizeA, hnil]

/-- Witness for C4 on a store whose every fetch fails. -/
theorem C4_witness :
    aggregate_city_weather "c" ["x.json"] fetchAlwaysFails
      = .error (.noValidData "c") ∧
    aggregate_city_weather_async "c" ["x.json"] fetchAlwaysFails
      = .error (.noValidData "c") := by
  constructor
  · exact (C4_no_valid_data_fails "c" fetchAlwaysFails).2.2.1 ["x.json"]
      (by intro f hf w hw; simp [tryFetchParse, fetchAlwaysFails] at hw)
  · exact (C4_no_valid_data_fails "c" fetchAlwaysFails).2.2.2 ["x.json"]
      (by intro f hf w hw; simp [tryFetchParseA, fetchAlwaysFails] at hw)

/-- C5: the spec's end-to-end scenario: the two concrete readings
aggregate to temp_min 1, temp_max 6, temp_avg 3.5, humidity_avg 55,
precipitation_sum 1.5, wind_speed_avg 3, readings_count 2; the reading
without a rain field contributes 0.0 to the precipitation list rather
than being omitted. -/
theorem C5_end_to_end_scenario :
    aggregate_city_weather "c" ["a.json", "b.json"] fetchAB
      = .ok ⟨.num 1, .num 6, .num (7/2), .num 55, .num (3/2), .num 3, 2⟩ ∧
    (collectSync fetchAB ["a.json", "b.json"]).precipitations
      = [.num 0, .num (3/2)] := by
  have hc : collectSync fetchAB ["a.json", "b.json"]
      = ⟨[.num 1, .num 2], [.num 5, .num 6], [.num 3, .num 4],
         [.num 50, .num 60], [.num 0, .num (3/2)], [.num 2, .num 4]⟩ := rfl
  refine ⟨?_, ?_⟩
  · unfold aggregate_city_weather
    rw [hc]
    simp [summarize, pyMin, pyMax, pyMean, pySum, pyMinMulti,
      pyMaxMulti, listMin, listMax, omin, omax, PyVal.asNum, PyVal.asStr,
      PyVal.isNone, Bind.bind, Except.bind, min_def, max_def]
    norm_num
  · rw [hc]

/-- C6 counterexample: a payload whose `temp_min` holds the non-numeric
string `"n/a"` is not treated as absent by the sync path: the value is
appended to the metric list and the subsequent aggregation fails with a
`TypeError`, contradicting the claim that a non-numeric optional field
contributes to no list and causes no failure. -/
theorem C6_counterexample :
    (collectSync fetchBad ["g.json", "bad.json"]).temps_min
      = [.num 1, .str "n/a"] ∧
    aggregate_city_weather "c" ["g.json", "bad.json"] fetchBad
      = .error .typeError :=
  ⟨rfl, rfl⟩

/-- C6 (amended): in the async path a missing or non-numeric optional
field is treated as absent — the collected lists are exactly the
per-file numeric values, with no failure; in the sync path only `None`
is filtered: a non-`None` value is appended whatever its type, and a
non-numeric one makes the aggregation fail with a `TypeError`. -/
theorem C6_amended_optional_fields :
    (∀ (s3get : String → Except PyErr PyVal) (files : List String),
      collectAsync s3get files = asyncCollected s3get files) ∧
    (∀ (s3get : String → Except PyErr PyVal) (f : String)
      (w : ParsedWeather) (m : SyncMetrics),
      tryFetchParse s3get f = Option.some w → w.temp_min.isNone = false →
      (syncFold s3get m f).temps_min = m.temps_min ++ [w.temp_min]) ∧
    (collectSync fetchBad ["g.json", "bad.json"]).temps_min
      = [.num 1, .str "n/a"] ∧
    aggregate_city_weather "c" ["g.json", "bad.json"] fetchBad
      = .error .typeError := by
  refine ⟨collectAsync_eq, ?_, rfl, rfl⟩
  intro s3get f w m hw hnn
  simp [syncFold, hw, syncStep, appendIfPresent, hnn]

/-- Witness for C6 (amended) at a concrete store, file and reading. -/
theorem C6_witness :
    collectAsync fetchBad ["g.json"] = asyncCollected fetchBad ["g.json"] ∧
    (syncFold fetchBad SyncMetrics.empty "bad.json").temps_min
      = SyncMetrics.empty.temps_min ++ [.str "n/a"] :=
  ⟨C6_amended_optional_fields.1 fetchBad ["g.json"],
   C6_amended_optional_fields.2.1 fetchBad "bad.json"
     ⟨.str "n/a", .none, .num 4, .none, .num 0, .none⟩
     SyncMetrics.empty rfl rfl⟩

/-- C7 counterexample: a reading set with a valid average temperature
but no humidity makes aggregation fail with the `StatisticsError` of
`mean([])`, not with the NoValidData condition the claim names. -/
theorem C7_counterexample :
    aggregate_city_weather "c" ["n.json"] fetchNoHum
      = .error .statisticsError ∧
    (Except.error PyErr.statisticsError : Except PyErr DailySummary)
      ≠ .error (.noValidData "c") := by
  refine ⟨rfl, ?_⟩
  simp

/-- C7 (amended): when every reading's humidity (or wind speed) is
absent while a usable average temperature exists, aggregation
propagates a failure — the `StatisticsError` raised by the mean of an
empty list, not the NoValidData condition — and the caller never
receives a summary with that mean coerced to zero or null. -/
theorem C7_amended_empty_metric_mean (city : String)
    (files : List String) (s3get : String → Except PyErr PyVal) :
    ((collectSync s3get files).humidities = [] →
      ∀ s, aggregate_city_weather city files s3get ≠ .ok s) ∧
    ((collectSync s3get files).winds = [] →
      ∀ s, aggregate_city_weather city files s3get ≠ .ok s) ∧
    ((collectAsync s3get files).humidities = [] →
      ∀ s, aggregate_city_weather_async city files s3get ≠ .ok s) ∧
    ((collectAsync s3get files).winds = [] →
      ∀ s, aggregate_city_weather_async city files s3get ≠ .ok s) ∧
    pyMean [] = .error .statisticsError ∧
    qMeanE [] = .error .statisticsError := by
  refine ⟨?_, ?_, ?_, ?_, rfl, rfl⟩
  · intro hh s hok; exact (summarize_ok_ne_nil hok).1 hh
  · intro hh s hok; exact (summarize_ok_ne_nil hok).2 hh
  · intro hh s hok; exact (summarizeA_ok_ne_nil hok).1 hh
  · intro hh s hok; exact (summarizeA_ok_ne_nil hok).2 hh

/-- Witness for C7 (amended) at the concrete humidity-free store. -/
theorem C7_witness :
    (collectSync fetchNoHum ["n.json"]).humidities = [] ∧
    ∀ s, aggregate_city_weather "c" ["n.json"] fetchNoHum ≠ .ok s :=
  ⟨rfl, (C7_amended_empty_metric_mean "c" ["n.json"] fetchNoHum).1 rfl⟩

/-- C1 counterexample: running the async persistence step twice with
summaries S1 then S2 for the same `(city, date)` leaves one row whose
fields are still S1, not S2: `save_weather_aggregate` inserts only when
the row is absent and never updates an existing row. -/
theorem C1_counterexample :
    save_weather_aggregate (save_weather_aggregate [] 1 d301 aggWarsaw1)
      1 d301 aggWarsaw2 = [⟨1, d301, aggWarsaw1⟩] ∧
    aggWarsaw1 ≠ aggWarsaw2 := by
  refine ⟨rfl, ?_⟩
  norm_num [aggWarsaw1, aggWarsaw2]

/-- C1 (amended): for a `(city_id, date)` key not yet in the table,
running the persistence step twice with S1 then S2 leaves exactly one
row for the key in either path, with no duplicate; in the sync handler
the row's fields equal S2 (update in place), while the async
`save_weather_aggregate` leaves the stale S1 fields: the existing row
is never updated. -/
theorem C1_amended_upsert (db : List AggRow) (cid : ℕ) (d : Ymd)
    (s1 s2 : DailySummary) (h : ∀ r ∈ db, ¬keyMatch cid d r) :
    persistAggregateSync (persistAggregateSync db cid d s1.toDict) cid d
      s2.toDict = db ++ [⟨cid, d, s2.toDict⟩] ∧
    save_weather_aggregate (save_weather_aggregate db cid d s1.toDict)
      cid d s2.toDict = db ++ [⟨cid, d, s1.toDict⟩] := by
  have hrow : keyMatch cid d (⟨cid, d, s1.toDict⟩ : AggRow) := ⟨rfl, rfl⟩
  have h1 : findAggRow db cid d = Option.none := findAggRow_none h
  constructor
  · have hp1 : persistAggregateSync db cid d s1.toDict
        = db ++ [⟨cid, d, s1.toDict⟩] := by
      unfold persistAggregateSync; rw [h1]
    rw [hp1]
    unfold persistAggregateSync
    rw [findAggRow_append h _ hrow, updateFirst_append h _ hrow]
    simp [updateRowFields_toDict]
  · have hs1 : save_weather_aggregate db cid d s1.toDict
        = db ++ [⟨cid, d, s1.toDict⟩] := by
      unfold save_weather_aggregate; rw [h1]
    rw [hs1]
    unfold save_weather_aggregate
    rw [findAggRow_append h _ hrow]

/-- Witness for C1 (amended) at the Warsaw example. -/
theorem C1_witness :
    persistAggregateSync (persistAggregateSync [] 1 d301 sumW1.toDict) 1
      d301 sumW2.toDict = [⟨1, d301, sumW2.toDict⟩] ∧
    save_weather_aggregate (save_weather_aggregate [] 1 d301 sumW1.toDict)
      1 d301 sumW2.toDict = [⟨1, d301, sumW1.toDict⟩] := by
  simpa using C1_amended_upsert [] 1 d301 sumW1 sumW2 (by simp)

/-- C2 counterexample: in the handler, the `NoValidData` failure of the
first city (`athens`, whose single blob parses to an object with no
usable metrics) aborts the whole run with a statusCode-500 response
carrying only the error: no per-entity failure entry is recorded and
the well-formed second city (`berlin`) is never processed. -/
theorem C2_counterexample :
    handlerRun depsTwoCities d301 []
      = ([], .err500 "No valid data for athens") ∧
    (HandlerResp.err500 "No valid data for athens").statusCode = 500 :=
  ⟨rfl, rfl⟩

/-- C2 (amended): per-entity failures are converted into tagged result
entries at the async persistence fan-out boundary
(`process_city_aggregate` catches every exception and
`process_all_cities` keeps one entry per task); but in the handler an
entity whose aggregation raises `NoValidData` aborts the run with a 500
response and no result entries — the remaining entities (here `berlin`,
whose data would aggregate successfully) are not processed. -/
theorem C2_amended_failure_isolation :
    (∀ (db : AsyncDb) (s3 : AsyncS3) (bucket : String) (cid : ℕ)
      (name : String) (d : Ymd) (agg : AggDict) (files : List String)
      (ts : String),
      (process_city_aggregate db s3 bucket cid name d agg files ts).city
        = name) ∧
    (∀ (db : AsyncDb) (s3 : AsyncS3) (bucket ts : String)
      (tasks : List CityTask),
      (process_all_cities db s3 bucket ts tasks).length = tasks.length) ∧
    handlerRun depsTwoCities d301 []
      = ([], .err500 "No valid data for athens") ∧
    aggregate_city_weather "berlin" ["raw/berlin/2024/03/01/b1.json"]
      depsTwoCities.getObject
      = .ok ⟨.num 2, .num 6, .num 4, .num 60, .num (3/2), .num 4, 1⟩ := by
  refine ⟨?_, ?_, rfl, ?_⟩
  · intro db s3 bucket cid name d agg files ts
    unfold process_city_aggregate
    split <;> rfl
  · intro db s3 bucket ts tasks
    simp [process_all_cities]
  · have hc : collectSync depsTwoCities.getObject
        ["raw/berlin/2024/03/01/b1.json"]
        = ⟨[.num 2], [.num 6], [.num 4], [.num 60], [.num (3/2)],
           [.num 4]⟩ := rfl
    unfold aggregate_city_weather
    rw [hc]
    simp [summarize, pyMin, pyMax, pyMean, pySum, pyMinMulti, pyMaxMulti,
      listMin, listMax, omin, omax, PyVal.asNum, PyVal.asStr,
      PyVal.isNone, Bind.bind, Except.bind]

/-- C8: the fan-out executor settles every job: the result list has one
entry per task, each tagged with its task's city; in the concrete
three-job run where city 2's database insert raises, the returned
collection is exactly the two correct successes of jobs 1 and 3 plus
one failure entry identifying city 2. -/
theorem C8_fanout_isolation :
    (∀ (db : AsyncDb) (s3 : AsyncS3) (bucket ts : String)
      (tasks : List CityTask),
      (process_all_cities db s3 bucket ts tasks).length = tasks.length) ∧
    (∀ (db : AsyncDb) (s3 : AsyncS3) (bucket : String) (cid : ℕ)
      (name : String) (d : Ymd) (agg : AggDict) (files : List String)
      (ts : String),
      (process_city_aggregate db s3 bucket cid name d agg files ts).city
        = name) ∧
    process_all_cities dbJob2Fails s3PutOk "processed" "T" tasksThree
      = [.success "city1" d301.iso (processedKeyA "city1" d301 "T")
           (.num 2),
         .failure "city2" "db write failed",
         .success "city3" d301.iso (processedKeyA "city3" d301 "T")
           (.num 2)] := by
  refine ⟨?_, ?_, rfl⟩
  · intro db s3 bucket ts tasks
    simp [process_all_cities]
  · intro db s3 bucket cid name d agg files ts
    unfold process_city_aggregate
    split <;> rfl

/-- C9 counterexample: with credentials configured but the blob store
unreachable (every listing raises `ClientError`), the handler returns
statusCode 200 with an empty result set — the unreachable store is
reported as a successful empty run, not as a failure. -/
theorem C9_counterexample :
    handler envAll depsUnreachable d301 [] = .ok ([], .ok200 []) ∧
    (HandlerResp.ok200 []).statusCode = 200 :=
  ⟨rfl, rfl⟩

/-- C9 (amended): a missing credential (unset environment variable)
aborts the run with an exception escaping the handler; but a
`ClientError` while listing during discovery is swallowed by
`list_folders`/`list_objects`, which return `[]`, so an unreachable
store yields a statusCode-200 response with an empty result set. -/
theorem C9_amended_config_vs_discovery :
    (∀ (env : String → Option String) (deps : SyncDeps) (d : Ymd)
      (db : List AggRow), env "RAW_BUCKET_NAME" = Option.none →
      handler env deps d db
        = .error "RAW_BUCKET_NAME environment variable not set") ∧
    (∀ (deps : SyncDeps) (d : Ymd) (db : List AggRow) (msg : String),
      deps.listFoldersRaw = .error msg →
      handlerRun deps d db = (db, .ok200 [])) ∧
    (∀ (deps : SyncDeps) (pfx msg : String),
      deps.listObjectsRaw pfx = .error msg →
      list_objects deps pfx = []) := by
  refine ⟨?_, ?_, ?_⟩
  · intro env deps d db h
    simp [handler, get_env_var, h, Bind.bind, Except.bind]
  · intro deps d db msg h
    simp [handlerRun, list_folders, h, processCitiesSync]
  · intro deps pfx msg h
    simp [list_objects, h]

/-- Witness for C9 (amended) at concrete environments. -/
theorem C9_witness :
    handler envNoRaw depsTwoCities d301 []
      = .error "RAW_BUCKET_NAME environment variable not set" ∧
    handlerRun depsUnreachable d301 [] = ([], .ok200 []) ∧
    list_objects depsUnreachable "raw/x/" = [] :=
  ⟨C9_amended_config_vs_discovery.1 envNoRaw depsTwoCities d301 [] rfl,
   C9_amended_config_vs_discovery.2.1 depsUnreachable d301 []
     "Could not connect to the endpoint URL" rfl,
   C9_amended_config_vs_discovery.2.2 depsUnreachable "raw/x/"
     "Could not connect to the endpoint URL" rfl⟩

/-- C10: when the underlying S3 put raises a `ClientError`, `put_json`
returns `None` instead of raising; `save_processed_payload` ignores
that return value and still returns the processed key, and
`process_city_aggregate` reports a success entry with a
`processed_file` for an entity whose summary blob was never stored. -/
theorem C10_put_failure_reported_success (db : AsyncDb) (s3 : AsyncS3)
    (bucket : String) (cid : ℕ) (name : String) (d : Ymd) (agg : AggDict)
    (files : List String) (ts msg : String)
    (hagg : agg.isEmpty = false) (hfiles : files.isEmpty = false)
    (hsave : save_weather_aggregateA db cid d agg = .ok ())
    (hput : s3.put_object (processedKeyA name d ts) = .error msg) :
    put_json s3 bucket (processedKeyA name d ts) = Option.none ∧
    save_processed_payload s3 bucket name d agg files ts
      = .ok (processedKeyA name d ts) ∧
    process_city_aggregate db s3 bucket cid name d agg files ts
      = .success name d.iso (processedKeyA name d ts)
          (dictGetD agg "readings_count" (.num 0)) := by
  have hsp : save_processed_payload s3 bucket name d agg files ts
      = .ok (processedKeyA name d ts) := by
    simp [save_processed_payload, hagg, hfiles]
  refine ⟨?_, hsp, ?_⟩
  · simp [put_json, hput]
  · simp [process_city_aggregate, hsave, hsp, Bind.bind, Except.bind]

/-- Witness for C10 at a concrete failing put. -/
theorem C10_witness :
    put_json s3PutFails "processed" (processedKeyA "city1" d301 "T")
      = Option.none ∧
    save_processed_payload s3PutFails "processed" "city1" d301 aggSmall
      ["f1"] "T" = .ok (processedKeyA "city1" d301 "T") ∧
    process_city_aggregate dbAllOk s3PutFails "processed" 1 "city1" d301
      aggSmall ["f1"] "T"
      = .success "city1" d301.iso (processedKeyA "city1" d301 "T")
          (dictGetD aggSmall "readings_count" (.num 0)) :=
  C10_put_failure_reported_success dbAllOk s3PutFails "processed" 1
    "city1" d301 aggSmall ["f1"] "T" "AccessDenied" rfl rfl rfl rfl

end WeatherPipeline
